import Mathlib

/-!
# Verification development for the m4a2wav batch-conversion pipeline

Shallow embedding of the conversion worker of `src/mawa.py` / `src/m4a2wav.py`
(`ConversionThread.run`) and of the `MainWindow` slots it signals
(`file_converted`, `update_progress`, `conversion_finished`,
`start_conversion`, `dropEvent`, `preview_converted_file`), together with
theorems settling the specification's claims about the pipeline.

The worker's two filesystem/codec calls (`AudioSegment.from_file` and
`AudioSegment.export`) are external collaborators; they are modelled by an
oracle `tc : String → String → Option PyErr` giving, for each
(source, destination) pair, either success (`none`) or the exception the
call raises (`some e`).  `ConversionThread.run` contains no exception
handler, so in the embedding a `some e` outcome ends the loop at once and is
returned as the escaped exception.
-/

namespace M4a2wav

/-- The kinds of failure the external transcode collaborator can raise,
following the spec's error taxonomy (§7): missing/unreadable source,
rejected/corrupt input, unwritable destination. -/
inductive PyErr where
  | sourceUnavailable
  | transcodeFailed
  | writeFailed
  deriving DecidableEq, Repr

/-- The signals `ConversionThread` emits, in the code's vocabulary:
`progress` (an integer percentage), `file_converted` (original file,
converted file) and `finished`. -/
inductive Event where
  | progress (value : Nat)
  | fileConverted (original converted : String)
  | finished
  deriving DecidableEq, Repr

/-- Events in the specification's vocabulary (§6).  `batchProgress` carries
the integer percentage the code's `progress` signal carries (so the spec's
`BatchProgress(1/2)` for a two-file batch is `batchProgress 50`). -/
inductive SpecEvent where
  | jobStarted (src : String)
  | jobSucceeded (src dst : String)
  | jobFailed (src : String) (reason : PyErr)
  | batchProgress (percent : Nat)
  | batchFinished
  deriving DecidableEq, Repr, BEq

/-- The spec-level name of each signal the code can emit.  The code has no
signal corresponding to `jobStarted` or `jobFailed`, so those are never in
the image of this map. -/
def abstractEvent : Event → SpecEvent
  | Event.progress v => SpecEvent.batchProgress v
  | Event.fileConverted o c => SpecEvent.jobSucceeded o c
  | Event.finished => SpecEvent.batchFinished

/-- Index of the last occurrence of `c`, as Python's `str.rfind` finds it
(`none` standing for Python's `-1`). -/
def lastIndexOf (c : Char) : List Char → Option Nat
  | [] => none
  | x :: xs =>
    match lastIndexOf c xs with
    | some i => some (i + 1)
    | none => if x = c then some 0 else none

/-- `os.path.basename` for POSIX paths: `p[p.rfind('/') + 1 :]`, the suffix
after the final `/` (empty when the path ends in `/`). -/
def basename (p : String) : String :=
  match lastIndexOf '/' p.data with
  | none => p
  | some k => String.mk (p.data.drop (k + 1))

/-- The root part of `os.path.splitext(p)`: everything before the last dot,
provided that dot lies after the last `/` and the characters between them
are not all dots (so leading dots of the file name, as in `.bashrc`, never
start an extension), else `p` unchanged.  Mirrors CPython's
`genericpath._splitext` with `sep = '/'`, `extsep = '.'`. -/
def splitextRoot (p : String) : String :=
  let cs := p.data
  match lastIndexOf '.' cs with
  | none => p
  | some d =>
    let s : Nat :=
      match lastIndexOf '/' cs with
      | none => 0
      | some k => k + 1
    if s ≤ d ∧ ¬ (((cs.drop s).take (d - s)).all (fun ch => ch == '.')) = true then
      String.mk (cs.take d)
    else p

/-- `os.path.join(a, b)` for POSIX paths: `b` when absolute, else `a ++ b`
when `a` is empty or already ends in the separator, else `a ++ "/" ++ b`. -/
def osPathJoin (a b : String) : String :=
  if b.data.head? = some '/' then b
  else if a = "" ∨ a.data.getLast? = some '/' then a ++ b
  else a ++ "/" ++ b

/-- The output path computed inside the worker loop:
`os.path.join(self.output_dir, os.path.splitext(os.path.basename(input_file))[0] + ".wav")`. -/
def destPath (output_dir input_file : String) : String :=
  osPathJoin output_dir (splitextRoot (basename input_file) ++ ".wav")

/-- The state `ConversionThread.__init__` stores: the submitted input files
and the output directory. -/
structure ConversionThread where
  input_files : List String
  output_dir : String
  deriving DecidableEq, Repr

/-- The `for` loop of `ConversionThread.run`, from its remaining iterations
`rest` and current index `i` (`total` is `total_files = len(self.input_files)`).
Per iteration: compute the output path, call the transcode collaborator
(`AudioSegment.from_file` + `export`, modelled by the oracle `tc`); on
success emit `progress(int((i + 1) / total_files * 100))` and then
`file_converted(input_file, output_file)` — in that order, as the source
does; when the call raises, the exception escapes (there is no handler in
`run`), ending the loop with no further events.  After the last iteration
`finished` is emitted.  The thread object `t` is threaded through unchanged,
as `run` assigns none of its fields.  The source computes the percentage
with IEEE-754 float division before `int` truncation; the embedding uses the
exact `⌊(i + 1) * 100 / total⌋`.  The two can differ by one at some inputs
(e.g. `total = 20`, `i + 1 = 7`), but no theorem below depends on the payload
at such an input: the concrete batches used have `total = 2`, where the float
computation is exact. -/
def ConversionThread.runLoop (tc : String → String → Option PyErr)
    (t : ConversionThread) (total : Nat) :
    List String → Nat → (List Event × Option PyErr) × ConversionThread
  | [], _ => (([Event.finished], none), t)
  | input_file :: rest, i =>
    let output_file := destPath t.output_dir input_file
    match tc input_file output_file with
    | some e => (([], some e), t)
    | none =>
      let r := ConversionThread.runLoop tc t total rest (i + 1)
      ((Event.progress ((i + 1) * 100 / total) ::
          Event.fileConverted input_file output_file :: r.1.1, r.1.2), r.2)

/-- `ConversionThread.run`: the emitted events, the exception that escaped
the loop (if any), and the thread object as the loop leaves it. -/
def ConversionThread.run (tc : String → String → Option PyErr)
    (t : ConversionThread) : (List Event × Option PyErr) × ConversionThread :=
  ConversionThread.runLoop tc t t.input_files.length t.input_files 0

/-- The event/exception outcome of running a freshly constructed
`ConversionThread(input_files, output_dir)`. -/
def run (tc : String → String → Option PyErr) (input_files : List String)
    (output_dir : String) : List Event × Option PyErr :=
  (ConversionThread.run tc { input_files := input_files, output_dir := output_dir }).1

/-- The sources of the per-job `file_converted` events of a trace, in
emission order. -/
def convertedSources (evs : List Event) : List String :=
  evs.filterMap fun e =>
    match e with
    | Event.fileConverted o _ => some o
    | _ => none

/-- Python dict assignment `d[k] = v` on `self.converted_files`, viewed as an
insertion-ordered association list: an existing binding of `k` is overwritten
in place, otherwise the new binding is appended. -/
def dictInsert (d : List (String × String)) (k v : String) :
    List (String × String) :=
  match d with
  | [] => [(k, v)]
  | (k1, v1) :: rest =>
    if k1 = k then (k, v) :: rest else (k1, v1) :: dictInsert rest k v

/-- Python dict lookup `d[k]` guarded by `k in d`: `some` of the bound value,
`none` when the key is absent. -/
def dictGet (d : List (String × String)) (k : String) : Option String :=
  match d with
  | [] => none
  | (k1, v1) :: rest => if k1 = k then some v1 else dictGet rest k

/-- The `MainWindow` state the embedded slots read and write.  `file_list`
keeps each item's `UserRole` payload (the full file path); display-only
attributes (item text, colors, media player, plots) are omitted.
`activeThreads` is not a Python attribute: it counts `ConversionThread`
objects that `start_conversion` has `start()`ed and whose `finished` signal
has not yet been handled, making the number of concurrently running workers
explicit.  `conversion_thread` is the last thread assigned to
`self.conversion_thread` (assignment drops the reference to the previous
thread without stopping it). -/
structure MainWindowState where
  input_files : List String
  output_dir : String
  converted_files : List (String × String)
  file_list : List String
  preview_label : String
  status_label : String
  progress_bar : Nat
  select_enabled : Bool
  outdir_enabled : Bool
  conversion_thread : Option ConversionThread
  activeThreads : Nat
  deriving DecidableEq, Repr

/-- The state `MainWindow.__init__` establishes. -/
def initialState : MainWindowState where
  input_files := []
  output_dir := ""
  converted_files := []
  file_list := []
  preview_label := "No file selected for preview"
  status_label := "Ready"
  progress_bar := 0
  select_enabled := true
  outdir_enabled := true
  conversion_thread := none
  activeThreads := 0

namespace MainWindow

/-- `MainWindow.add_file_to_list`: append an item carrying the path. -/
def add_file_to_list (s : MainWindowState) (file_path : String) :
    MainWindowState :=
  { s with file_list := s.file_list ++ [file_path] }

/-- `MainWindow.start_conversion(files)`: disable the buttons, reset the
status and progress bar, construct `ConversionThread(files, self.output_dir)`,
connect its signals and `start()` it — unconditionally: nothing checks
whether a previous thread is still running. -/
def start_conversion (s : MainWindowState) (files : List String) :
    MainWindowState :=
  { s with
    select_enabled := false
    outdir_enabled := false
    status_label := "Converting..."
    progress_bar := 0
    conversion_thread := some { input_files := files, output_dir := s.output_dir }
    activeThreads := s.activeThreads + 1 }

/-- `MainWindow.dropEvent`: collect the dropped URLs whose lower-cased path
ends in `.m4a`, add each to the list widget, and — when some were collected
and an output directory is set — extend `self.input_files` and call
`start_conversion` on just the new files. -/
def dropEvent (s : MainWindowState) (urls : List String) : MainWindowState :=
  let new_files :=
    urls.filter fun p => ".m4a".data.isSuffixOf (p.data.map Char.toLower)
  let s1 := new_files.foldl add_file_to_list s
  if new_files ≠ [] ∧ s1.output_dir ≠ "" then
    start_conversion { s1 with input_files := s1.input_files ++ new_files }
      new_files
  else s1

/-- The `MainWindow.file_converted` slot: record
`self.converted_files[original_file] = converted_file` and update the
preview label (media loading and waveform display are external UI calls). -/
def file_converted (s : MainWindowState) (original_file converted_file : String) :
    MainWindowState :=
  { s with
    converted_files := dictInsert s.converted_files original_file converted_file
    preview_label := "Preview: " ++ basename converted_file }

/-- The `MainWindow.update_progress` slot. -/
def update_progress (s : MainWindowState) (value : Nat) : MainWindowState :=
  { s with progress_bar := value }

/-- The `MainWindow.conversion_finished` slot; handling `finished` also marks
the worker thread as no longer running. -/
def conversion_finished (s : MainWindowState) : MainWindowState :=
  { s with
    progress_bar := 100
    status_label := "Conversion complete!"
    select_enabled := true
    outdir_enabled := true
    activeThreads := s.activeThreads - 1 }

/-- `MainWindow.preview_converted_file`: the converted file the click would
preview — `self.converted_files[file_path]` when present, else nothing. -/
def preview_converted_file (s : MainWindowState) (file_path : String) :
    Option String :=
  dictGet s.converted_files file_path

end MainWindow

/-- Delivery of one emitted signal through the connections
`start_conversion` makes: `progress → update_progress`,
`file_converted → file_converted`, `finished → conversion_finished`. -/
def deliverEvent (s : MainWindowState) : Event → MainWindowState
  | Event.progress v => MainWindow.update_progress s v
  | Event.fileConverted o c => MainWindow.file_converted s o c
  | Event.finished => MainWindow.conversion_finished s

/-- Delivery of a whole trace, in emission order (Qt delivers queued signals
in order). -/
def deliverEvents (s : MainWindowState) (evs : List Event) : MainWindowState :=
  evs.foldl deliverEvent s

/-- Oracle: every transcode succeeds. -/
def tcOk (_src _dst : String) : Option PyErr := none

/-- Oracle for C1's failing input: converting `a.m4a` raises (malformed
input), every other job succeeds. -/
def tcC1 (src _dst : String) : Option PyErr :=
  if src = "a.m4a" then some PyErr.transcodeFailed else none

/-- Oracle for C2's scenario: `b.m4a` does not exist on disk, so
`AudioSegment.from_file` raises; `a.m4a` transcodes successfully. -/
def tcC2 (src _dst : String) : Option PyErr :=
  if src = "b.m4a" then some PyErr.sourceUnavailable else none

/-- Oracle for C3's failing input: converting `b.m4a` raises. -/
def tcC3 (src _dst : String) : Option PyErr :=
  if src = "b.m4a" then some PyErr.transcodeFailed else none

/-- A busy window: output directory `/out` chosen, one conversion thread
started for `a.m4a` and still running. -/
def busyState : MainWindowState :=
  MainWindow.start_conversion
    { initialState with
      input_files := ["a.m4a"]
      file_list := ["a.m4a"]
      output_dir := "/out" }
    ["a.m4a"]

/-- C8: Submitting an empty sequence of sourcePaths emits exactly one
`finished` (BatchFinished) event and no `progress` or `file_converted`
events — in particular zero per-job events of any kind — and no exception
escapes: the vacuous batch completes immediately. -/
theorem C8_empty_batch (tc : String → String → Option PyErr) (dir : String) :
    run tc [] dir = ([Event.finished], none) := rfl

/-- C1 (code_bug evaluation): with the batch `["a.m4a", "b.m4a"]` and a
transcode failure on `a.m4a`, `ConversionThread.run` emits no events at all
and the exception escapes the worker loop: `b.m4a` is never attempted and no
JobFailed-like event exists or is emitted, contradicting the claim that
per-job failures are caught at the worker boundary and every subsequent
queued job is still attempted. -/
theorem C1_uncaught_failure_kills_loop :
    run tcC1 ["a.m4a", "b.m4a"] "/out" = ([], some PyErr.transcodeFailed) := by
  rfl

/-- C2 (counterexample): at the claimed scenario — batch
`["a.m4a", "b.m4a"]`, destination `/out`, `a.m4a` succeeds, `b.m4a` missing
on disk — the trace the worker emits, read in the spec's event vocabulary,
is not the claimed seven-event sequence `JobStarted(a)`, `JobSucceeded(a,
/out/a.wav)`, `BatchProgress(1/2)`, `JobStarted(b)`, `JobFailed(b,
SourceUnavailable)`, `BatchProgress(2/2)`, `BatchFinished`. -/
theorem C2_event_sequence_counterexample :
    (((run tcC2 ["a.m4a", "b.m4a"] "/out").1.map abstractEvent) ==
      [SpecEvent.jobStarted "a.m4a",
       SpecEvent.jobSucceeded "a.m4a" "/out/a.wav",
       SpecEvent.batchProgress 50,
       SpecEvent.jobStarted "b.m4a",
       SpecEvent.jobFailed "b.m4a" PyErr.sourceUnavailable,
       SpecEvent.batchProgress 100,
       SpecEvent.batchFinished]) = false := by
  rfl

/-- C2 (amended): at that scenario the worker emits exactly
`progress(50)` followed by `file_converted(a.m4a, /out/a.wav)` — the batch
progress precedes the job's terminal event, the reverse of the claimed
order — and then the failure on `b.m4a` escapes the loop, so no further
events (no JobFailed counterpart, no 100% progress, no BatchFinished) are
emitted; the cache afterwards contains exactly `{a.m4a ↦ /out/a.wav}`. -/
theorem C2_actual_behaviour :
    run tcC2 ["a.m4a", "b.m4a"] "/out"
      = ([Event.progress 50, Event.fileConverted "a.m4a" "/out/a.wav"],
         some PyErr.sourceUnavailable)
    ∧ (deliverEvents initialState
        (run tcC2 ["a.m4a", "b.m4a"] "/out").1).converted_files
      = [("a.m4a", "/out/a.wav")] := by
  exact ⟨by decide, by decide⟩

/-- C3 (code_bug evaluation): with the batch `["a.m4a", "b.m4a"]` and a
transcode failure on `b.m4a`, the only `progress` event of the whole batch
is the one for `a.m4a` (value 50): no progress event follows the failed job
and the batch's progress never reaches 100, contradicting the claim that a
BatchProgress event is emitted after every job regardless of outcome and
that the count reaches the submission total exactly once. -/
theorem C3_no_progress_after_failed_job :
    run tcC3 ["a.m4a", "b.m4a"] "/out"
      = ([Event.progress 50, Event.fileConverted "a.m4a" "/out/a.wav"],
         some PyErr.transcodeFailed) := by
  decide

/-- C7 (code_bug evaluation): in a window whose single worker is still
running (`busyState`, one active thread converting `a.m4a`), dropping
`b.m4a` calls `start_conversion`, which unconditionally constructs and
starts a second `ConversionThread`: afterwards two workers run concurrently,
and the new thread's queue holds only the new file — the running worker's
queue was never extended — contradicting the claim that a submission while
busy only extends the queue and never starts a second concurrent worker. -/
theorem C7_second_worker_started :
    busyState.activeThreads = 1
    ∧ (MainWindow.dropEvent busyState ["b.m4a"]).activeThreads = 2
    ∧ (MainWindow.dropEvent busyState ["b.m4a"]).conversion_thread
      = some { input_files := ["b.m4a"], output_dir := "/out" } := by
  exact ⟨rfl, by decide, by decide⟩

/-- The worker loop never writes the thread object: the state it returns is
the state it was given, whether it ends normally or by an escaped
exception. -/
theorem runLoop_thread_frame (tc : String → String → Option PyErr)
    (t : ConversionThread) (total : Nat) :
    ∀ (rest : List String) (i : Nat),
      (ConversionThread.runLoop tc t total rest i).2 = t := by
  intro rest
  induction rest with
  | nil => intro i; rfl
  | cons f rest ih =>
    intro i
    cases htc : tc f (destPath t.output_dir f) <;>
      simp [ConversionThread.runLoop, htc, ih (i + 1)]

/-- Every `file_converted` event the worker loop emits carries the output
path computed for its source by the loop's path formula. -/
theorem fileConverted_dest_runLoop (tc : String → String → Option PyErr)
    (t : ConversionThread) (total : Nat) :
    ∀ (rest : List String) (i : Nat) (src dst : String),
      Event.fileConverted src dst ∈ (ConversionThread.runLoop tc t total rest i).1.1 →
      dst = destPath t.output_dir src := by
  intro rest
  induction rest with
  | nil =>
    intro i src dst h
    simp [ConversionThread.runLoop] at h
  | cons f rest ih =>
    intro i src dst h
    cases htc : tc f (destPath t.output_dir f) with
    | some e => simp [ConversionThread.runLoop, htc] at h
    | none =>
      simp only [ConversionThread.runLoop, htc, List.mem_cons] at h
      rcases h with h | h | h
      · exact absurd h (by simp)
      · obtain ⟨rfl, rfl⟩ := Event.fileConverted.inj h
        rfl
      · exact ih (i + 1) src dst h

/-- The per-job events of the worker loop name the submitted sources in
submission order: their sources are an initial segment of the pending list,
and the whole list when every transcode succeeds. -/
theorem runLoop_sources_in_order (tc : String → String → Option PyErr)
    (t : ConversionThread) (total : Nat) :
    ∀ (rest : List String) (i : Nat),
      (∃ k, convertedSources (ConversionThread.runLoop tc t total rest i).1.1
          = rest.take k)
      ∧ ((∀ f ∈ rest, tc f (destPath t.output_dir f) = none) →
          convertedSources (ConversionThread.runLoop tc t total rest i).1.1 = rest) := by
  intro rest
  induction rest with
  | nil =>
    intro i
    exact ⟨⟨0, by simp [ConversionThread.runLoop, convertedSources]⟩,
      fun _ => by simp [ConversionThread.runLoop, convertedSources]⟩
  | cons f rest ih =>
    intro i
    cases htc : tc f (destPath t.output_dir f) with
    | some e =>
      refine ⟨⟨0, by simp [ConversionThread.runLoop, htc, convertedSources]⟩, ?_⟩
      intro hall
      exact absurd (hall f (List.mem_cons_self f rest)) (by simp [htc])
    | none =>
      obtain ⟨⟨k, hk⟩, hfull⟩ := ih (i + 1)
      refine ⟨⟨k + 1, ?_⟩, ?_⟩
      · simp [ConversionThread.runLoop, htc, convertedSources] at hk ⊢
        exact hk
      · intro hall
        have h2 := hfull fun g hg => hall g (List.mem_cons_of_mem f hg)
        simp [ConversionThread.runLoop, htc, convertedSources] at h2 ⊢
        exact h2

/-- Looking up the key just written by `dictInsert` yields the written
value, whatever binding the dict held before. -/
theorem dictGet_dictInsert_self (d : List (String × String)) (k v : String) :
    dictGet (dictInsert d k v) k = some v := by
  induction d with
  | nil => simp [dictInsert, dictGet]
  | cons p rest ih =>
    obtain ⟨k1, v1⟩ := p
    by_cases hk : k1 = k <;> simp [dictInsert, dictGet, hk, ih]

/-- Writing one key leaves lookups of every other key unchanged. -/
theorem dictGet_dictInsert_ne (d : List (String × String)) (k1 k v : String)
    (h : k1 ≠ k) : dictGet (dictInsert d k1 v) k = dictGet d k := by
  induction d with
  | nil => simp [dictInsert, dictGet, h]
  | cons p rest ih =>
    obtain ⟨k2, v2⟩ := p
    by_cases hk : k2 = k1
    · subst hk
      simp [dictInsert, dictGet, h]
    · simp [dictInsert, dictGet, hk, ih]

/-- Delivering a trace none of whose `file_converted` events names `src`
leaves the cache entry of `src` unchanged. -/
theorem dictGet_deliverEvents_stable (evs : List Event) :
    ∀ (s : MainWindowState) (src : String), src ∉ convertedSources evs →
      dictGet (deliverEvents s evs).converted_files src
        = dictGet s.converted_files src := by
  induction evs with
  | nil => intro s src _; rfl
  | cons e evs ih =>
    intro s src h
    cases e with
    | progress v =>
      simp only [convertedSources, List.filterMap_cons] at h
      exact ih (MainWindow.update_progress s v) src h
    | fileConverted o c =>
      simp only [convertedSources, List.filterMap_cons, List.mem_cons] at h
      push_neg at h
      obtain ⟨ho, hrest⟩ := h
      have := ih (MainWindow.file_converted s o c) src hrest
      rw [show deliverEvents s (Event.fileConverted o c :: evs)
          = deliverEvents (MainWindow.file_converted s o c) evs from rfl, this]
      exact dictGet_dictInsert_ne _ o src c (Ne.symm ho)
    | finished =>
      simp only [convertedSources, List.filterMap_cons] at h
      exact ih (MainWindow.conversion_finished s) src h

/-- C10: Running a batch leaves the submitted inputs unchanged: whether the
loop ends normally or by an escaped exception, the thread object after
`ConversionThread.run` is exactly the constructed one — in particular its
input file list and output directory are as at construction; results are
communicated only through the emitted events. -/
theorem C10_frame (tc : String → String → Option PyErr) (t : ConversionThread) :
    (ConversionThread.run tc t).2 = t
    ∧ (ConversionThread.run tc t).2.input_files = t.input_files
    ∧ (ConversionThread.run tc t).2.output_dir = t.output_dir := by
  have h := runLoop_thread_frame tc t t.input_files.length t.input_files 0
  exact ⟨h, congrArg ConversionThread.input_files h,
    congrArg ConversionThread.output_dir h⟩

/-- C4: `start_conversion` hands the worker one job per sourcePath in input
order (the thread's queue is the submitted list itself), and the worker
executes jobs strictly in that order: the sources of the emitted per-job
events are an initial segment of the submitted sourcePaths, and equal to
them — same elements, same order — when every transcode succeeds. -/
theorem C4_fifo_order (tc : String → String → Option PyErr)
    (files : List String) (dir : String) (s : MainWindowState) :
    ((MainWindow.start_conversion s files).conversion_thread
      = some { input_files := files, output_dir := s.output_dir })
    ∧ (∃ k, convertedSources (run tc files dir).1 = files.take k)
    ∧ ((∀ f ∈ files, tc f (destPath dir f) = none) →
        convertedSources (run tc files dir).1 = files) := by
  obtain ⟨hpre, hfull⟩ :=
    runLoop_sources_in_order tc { input_files := files, output_dir := dir }
      files.length files 0
  exact ⟨rfl, hpre, hfull⟩

/-- C5: Every emitted per-job event's destinationPath is the destination
directory joined with the source's base name, its extension replaced by
`.wav`. -/
theorem C5_dest_path (tc : String → String → Option PyErr) (files : List String)
    (dir src dst : String)
    (h : Event.fileConverted src dst ∈ (run tc files dir).1) :
    dst = osPathJoin dir (splitextRoot (basename src) ++ ".wav") :=
  fileConverted_dest_runLoop tc { input_files := files, output_dir := dir }
    files.length files 0 src dst h

/-- C5 witness: in the one-file batch `["a.m4a"]` with destination `/out`,
the emitted destination `/out/a.wav` is the claimed join. -/
theorem C5_dest_path_witness :
    "/out/a.wav" = osPathJoin "/out" (splitextRoot (basename "a.m4a") ++ ".wav") :=
  C5_dest_path tcOk ["a.m4a"] "/out" "a.m4a" "/out/a.wav" (by decide)

/-- C6: A successful job's `file_converted` handler sets the cache entry of
its sourcePath to the job's destinationPath, overwriting any prior mapping;
the lookup keeps returning exactly that destinationPath across any further
events that do not reconvert the same sourcePath, and a later successful
reconversion of it overwrites the entry with the new destinationPath. -/
theorem C6_cache_overwrite (s : MainWindowState) (src dst : String)
    (evs : List Event) (h : src ∉ convertedSources evs) :
    dictGet (MainWindow.file_converted s src dst).converted_files src = some dst
    ∧ dictGet (deliverEvents (MainWindow.file_converted s src dst) evs).converted_files
        src = some dst
    ∧ ∀ dst2 : String,
        dictGet (deliverEvents (MainWindow.file_converted s src dst)
          (evs ++ [Event.fileConverted src dst2])).converted_files src = some dst2 := by
  refine ⟨dictGet_dictInsert_self _ _ _, ?_, ?_⟩
  · rw [dictGet_deliverEvents_stable evs _ src h]
    exact dictGet_dictInsert_self _ _ _
  · intro dst2
    rw [show deliverEvents (MainWindow.file_converted s src dst)
          (evs ++ [Event.fileConverted src dst2])
        = MainWindow.file_converted
            (deliverEvents (MainWindow.file_converted s src dst) evs) src dst2 by
      simp [deliverEvents, List.foldl_append, deliverEvent]]
    exact dictGet_dictInsert_self _ _ _

/-- C6 witness: after converting `a.m4a` to `/out/a.wav`, a cache lookup of
`a.m4a` returns `/out/a.wav`; the trace used for stability converts an
unrelated file. -/
theorem C6_cache_witness :
    dictGet (MainWindow.file_converted initialState "a.m4a" "/out/a.wav").converted_files
      "a.m4a" = some "/out/a.wav" :=
  (C6_cache_overwrite initialState "a.m4a" "/out/a.wav"
    [Event.progress 50, Event.fileConverted "c.m4a" "/out/c.wav", Event.finished]
    (by decide)).1

/-- C9: Two distinct sourcePaths sharing a base name get the same computed
destinationPath, and after both convert successfully the cache maps both
sourcePaths to that one destinationPath (the later job having overwritten
the earlier job's output file, since the output paths coincide). -/
theorem C9_basename_collision (dir p1 p2 : String) (hne : p1 ≠ p2)
    (h : basename p1 = basename p2) :
    destPath dir p1 = destPath dir p2
    ∧ ∀ s : MainWindowState,
        dictGet (MainWindow.file_converted
            (MainWindow.file_converted s p1 (destPath dir p1))
            p2 (destPath dir p2)).converted_files p1 = some (destPath dir p1)
        ∧ dictGet (MainWindow.file_converted
            (MainWindow.file_converted s p1 (destPath dir p1))
            p2 (destPath dir p2)).converted_files p2 = some (destPath dir p1) := by
  have hd : destPath dir p1 = destPath dir p2 := by
    unfold destPath
    rw [h]
  refine ⟨hd, fun s => ⟨?_, ?_⟩⟩
  · simp only [MainWindow.file_converted]
    rw [dictGet_dictInsert_ne _ p2 p1 _ (Ne.symm hne)]
    exact dictGet_dictInsert_self _ _ _
  · simp only [MainWindow.file_converted]
    rw [← hd]
    exact dictGet_dictInsert_self _ _ _

/-- C9 witness: `x/s.m4a` and `y/s.m4a` are distinct paths with the same
base name and get the same destination under `/out`. -/
theorem C9_witness :
    destPath "/out" "x/s.m4a" = destPath "/out" "y/s.m4a" :=
  (C9_basename_collision "/out" "x/s.m4a" "y/s.m4a" (by decide) (by decide)).1

end M4a2wav
